import Mathlib

/-!
Verification of the timesheet frontend API utility layer
(`src/app/utils/api.ts`) against its natural-language specification.

The embedding models `makeAPICall` as a run-to-suspension state machine:
The JavaScript single-threaded cooperative concurrency means the code between
two `await` points runs atomically, so one `makeAPICall` invocation is a
small automaton whose transitions are those atomic blocks, and concurrent
invocations are an interleaving of such automata over the shared
`localStorage` token store.  Network behaviour is an oracle: each call
carries a script assigning an outcome (response or transport rejection) to
its n-th `fetch`.  Every network send is recorded in a trace so that
counting claims (single-flight, retry-at-most-once) are directly statable.

The date utilities (`formatDate`, `parseDate`) are modelled over `List Char`
(a JavaScript string as its character sequence), with `new Date(y, m, d)`
normalisation made explicit.
-/

namespace TimesheetClient

/-- HTTP headers as a JavaScript object: an association list with unique
keys; `setKey` is property assignment (overwrite in place or append). -/
abbrev Headers := List (String × String)

/-- JS object property assignment: overwrite an existing key in place,
or append a fresh one (JS objects keep the original insertion position
of an overwritten key). -/
def setKey (h : Headers) (kv : String × String) : Headers :=
  match h with
  | [] => [kv]
  | (k, v) :: rest =>
      if k = kv.1 then (k, kv.2) :: rest else (k, v) :: setKey rest kv

/-- JS object spread `\x7b...a, ...b\x7d`: start from `a` and assign each
entry of `b` in order, so later entries win. -/
def objSpread (a b : Headers) : Headers := b.foldl setKey a

/-- Read a property of a JS header object. -/
def getHeader (h : Headers) (k : String) : Option String :=
  (h.find? (fun p => p.1 == k)).map (fun p => p.2)

/-- The two `localStorage` slots the client uses. -/
structure Store where
  access_token : Option String
  refresh_token : Option String
deriving DecidableEq

/-- Both tokens removed, as `makeAPICall` leaves the store after
`localStorage.removeItem` on each slot. -/
def teardownStore : Store := { access_token := none, refresh_token := none }

/-- The JSON body of a response, restricted to the fields this client ever
reads: the `access` field of a refresh response and the `activity_types`
field of an activities response. -/
structure RespBody where
  access : Option String
  activity_types : Option (List String)
deriving DecidableEq

/-- Outcome of one `fetch`: a response (HTTP status, the parsed JSON body
when `response.json()` would succeed — `none` models a body whose parse
rejects — and an identity tag distinguishing response objects), or a
transport-level rejection carrying the thrown error. -/
inductive FetchOutcome where
  | resp (status : Nat) (body : Option RespBody) (tag : String)
  | netErr (e : String)
deriving DecidableEq

/-- A request body: either `JSON.stringify` of the refresh payload
(the object with the single field `refresh`), or an uninterpreted caller string. -/
inductive ReqBody where
  | jsonRefresh (rt : String)
  | str (s : String)
deriving DecidableEq

/-- An outbound HTTP request as handed to `fetch`. -/
structure Request where
  url : String
  method : String
  headers : Headers
  body : Option ReqBody
deriving DecidableEq

/-- Caller-supplied `RequestInit` options: method (`fetch` defaults to GET),
headers, body. -/
structure Options where
  method : Option String
  headers : Headers
  body : Option ReqBody
deriving DecidableEq

/-- The default (empty) options object. -/
def noOptions : Options := { method := none, headers := [], body := none }

/-- Base URL `API_BASE`: the source reads `process.env.NEXT_PUBLIC_API_BASE_URL`
with this literal fallback; the value is never inspected by the logic. -/
def API_BASE : String := "http://localhost:8000/api"

/-- The token-refresh endpoint. -/
def refreshURL : String := API_BASE ++ "/token/refresh/"

/-- The default headers `makeAPICall` builds: `Content-Type` always, plus
`Authorization: Bearer <token>` when an access token is stored. -/
def defaultHeaders (token : Option String) : Headers :=
  match token with
  | some t => [("Content-Type", "application/json"), ("Authorization", "Bearer " ++ t)]
  | none => [("Content-Type", "application/json")]

/-- The merged headers of the primary request:
`\x7b...defaultOptions.headers, ...options.headers\x7d`. -/
def mergedHeaders (token : Option String) (options : Options) : Headers :=
  objSpread (defaultHeaders token) options.headers

/-- The primary request `makeAPICall` sends. -/
def primaryRequest (url : String) (options : Options) (token : Option String) : Request :=
  { url := url, method := options.method.getD "GET",
    headers := mergedHeaders token options, body := options.body }

/-- The refresh round-trip request: `POST` to the refresh endpoint with
`Content-Type` only and body `JSON.stringify(\x7brefresh: refreshToken\x7d)`. -/
def refreshRequest (rt : String) : Request :=
  { url := refreshURL, method := "POST",
    headers := [("Content-Type", "application/json")],
    body := some (.jsonRefresh rt) }

/-- The retried request: the merged options with `Authorization` forced to
the newly obtained access token. -/
def retryRequest (url : String) (options : Options) (merged : Headers) (access : String) : Request :=
  { url := url, method := options.method.getD "GET",
    headers := objSpread merged [("Authorization", "Bearer " ++ access)],
    body := options.body }

/-- The settled result of one `makeAPICall`: a resolved response or a
rejection carrying the thrown error. -/
inductive CallRes where
  | resp (status : Nat) (body : Option RespBody) (tag : String)
  | thrown (e : String)
deriving DecidableEq

/-- Property `Response.ok`: status in the 2xx range. -/
def respOk (status : Nat) : Bool := decide (200 ≤ status ∧ status ≤ 299)

/-- Which of the three `fetch` call sites in `makeAPICall` issued a send. -/
inductive Role where
  | primaryFetch
  | refreshFetch
  | retryFetch
deriving DecidableEq

/-- A recorded network send: which call (thread id), which call site,
and the request handed to `fetch`. -/
structure Event where
  tid : Nat
  role : Role
  req : Request
deriving DecidableEq

/-- The control point of one `makeAPICall` invocation, between two
suspension (`await`) points.  `awaitRefresh` carries the original 401
response because the source returns that very response object after a
failed refresh. -/
inductive TPhase where
  | start
  | awaitPrimary (merged : Headers)
  | awaitRefresh (merged : Headers) (origStatus : Nat) (origBody : Option RespBody) (origTag : String)
  | awaitRetry
  | done (r : CallRes)

/-- One in-flight `makeAPICall` invocation: its arguments, its network
script (outcome of its n-th `fetch`), and its control point. -/
structure Call where
  url : String
  options : Options
  net : Nat → FetchOutcome
  phase : TPhase

/-- The whole client state: the shared token store, whether
`window.location.href` was set to `/login`, the in-flight calls, and the
trace of network sends. -/
structure Sys where
  store : Store
  redirected : Bool
  calls : List Call
  trace : List Event

/-- One run-to-suspension block of `makeAPICall` (api.ts lines 35-95).
`start`: read the access token, merge headers, send the primary request.
`awaitPrimary`: dispatch on the primary response — non-401 is returned
as-is; 401 with no stored refresh token clears both tokens, redirects,
and resolves with the original response; 401 with a refresh token sends
the refresh POST.  `awaitRefresh`: on a 2xx refresh, store the new access
token and send the retry with `Authorization` forced to it; on a non-2xx
refresh, a transport rejection, or a body whose `json()` rejects (caught
by the inner catch), clear both tokens, redirect, and resolve with the
original 401 response.  `awaitRetry`: resolve with the outcome of the retry;
a transport rejection of the retry propagates (the `return fetch(...)`
is not awaited, so neither catch sees it). -/
def stepCall (store : Store) (redirected : Bool) (c : Call) :
    Call × Store × Bool × List (Role × Request) :=
  match c.phase with
  | .start =>
      let merged := mergedHeaders store.access_token c.options
      ({ c with phase := .awaitPrimary merged }, store, redirected,
       [(.primaryFetch, primaryRequest c.url c.options store.access_token)])
  | .awaitPrimary merged =>
      match c.net 0 with
      | .netErr e =>
          ({ c with phase := .done (.thrown e) }, store, redirected, [])
      | .resp s b tag =>
          if s = 401 then
            match store.refresh_token with
            | none =>
                ({ c with phase := .done (.resp s b tag) }, teardownStore, true, [])
            | some rt =>
                ({ c with phase := .awaitRefresh merged s b tag }, store, redirected,
                 [(.refreshFetch, refreshRequest rt)])
          else
            ({ c with phase := .done (.resp s b tag) }, store, redirected, [])
  | .awaitRefresh merged s b tag =>
      match c.net 1 with
      | .netErr _ =>
          ({ c with phase := .done (.resp s b tag) }, teardownStore, true, [])
      | .resp s2 b2 _ =>
          if respOk s2 then
            match b2 with
            | none =>
                ({ c with phase := .done (.resp s b tag) }, teardownStore, true, [])
            | some rb =>
                let access := rb.access.getD "undefined"
                ({ c with phase := .awaitRetry },
                 { access_token := some access, refresh_token := store.refresh_token },
                 redirected,
                 [(.retryFetch, retryRequest c.url c.options merged access)])
          else
            ({ c with phase := .done (.resp s b tag) }, teardownStore, true, [])
  | .awaitRetry =>
      match c.net 2 with
      | .netErr e => ({ c with phase := .done (.thrown e) }, store, redirected, [])
      | .resp s3 b3 tag3 => ({ c with phase := .done (.resp s3 b3 tag3) }, store, redirected, [])
  | .done _ => (c, store, redirected, [])

/-- Run one block of the call with the given thread id (no-op when the id
is out of range or the call has settled). -/
def step (sys : Sys) (tid : Nat) : Sys :=
  match sys.calls[tid]? with
  | none => sys
  | some c =>
      match stepCall sys.store sys.redirected c with
      | (c2, store2, red2, evs) =>
          { store := store2, redirected := red2,
            calls := sys.calls.set tid c2,
            trace := sys.trace ++ evs.map (fun p => { tid := tid, role := p.1, req := p.2 }) }

/-- Interleaved execution under a schedule (the sequence of thread ids
chosen at each cooperative step). -/
def run (sys : Sys) (sched : List Nat) : Sys := sched.foldl step sys

/-- A fresh invocation of `makeAPICall url options` with network script
`net`. -/
def mkCall (url : String) (options : Options) (net : Nat → FetchOutcome) : Call :=
  { url := url, options := options, net := net, phase := .start }

/-- An initial system: given token store, no redirect yet, the given fresh
calls, empty trace. -/
def mkSys (store : Store) (cs : List Call) : Sys :=
  { store := store, redirected := false, calls := cs, trace := [] }

/-- A single `makeAPICall` run to completion (four blocks always suffice:
start, primary response, refresh response, retry response). -/
def runOne (url : String) (options : Options) (store : Store) (net : Nat → FetchOutcome) : Sys :=
  run (mkSys store [mkCall url options net]) [0, 0, 0, 0]

/-- The settled result of the call with the given thread id, if settled. -/
def callResult (sys : Sys) (tid : Nat) : Option CallRes :=
  match sys.calls[tid]? with
  | some c =>
      match c.phase with
      | .done r => some r
      | _ => none
  | none => none

/-- How many sends a given call site has issued overall. -/
def countRole (sys : Sys) (r : Role) : Nat :=
  sys.trace.countP (fun e => decide (e.role = r))

/-- How many refresh POSTs a given call has issued. -/
def refreshCountBy (tr : List Event) (tid : Nat) : Nat :=
  tr.countP (fun e => decide (e.tid = tid) && decide (e.role = Role.refreshFetch))

/-- The retry sends of a system, in order. -/
def retryEvents (sys : Sys) : List Event :=
  sys.trace.filter (fun e => decide (e.role = Role.retryFetch))

/-- The refresh sends of a system, in order. -/
def refreshEvents (sys : Sys) : List Event :=
  sys.trace.filter (fun e => decide (e.role = Role.refreshFetch))

/-- The fallback activity list hard-coded in `loadActivitiesForProject`. -/
def defaultActivities : List String :=
  ["Development", "Testing", "Code Review", "Bug Fixing", "Meeting", "Documentation"]

/-- The activities endpoint for a project. -/
def activitiesURL (projectId : Nat) : String :=
  API_BASE ++ "/timesheets/project/" ++ toString projectId ++ "/activities/"

/-- The settled result of the `makeAPICall` that
`loadActivitiesForProject` performs (called with default options). -/
def activitiesCallRes (projectId : Nat) (store : Store) (net : Nat → FetchOutcome) : Option CallRes :=
  callResult (runOne (activitiesURL projectId) noOptions store net) 0

/-- Function `loadActivitiesForProject` (api.ts lines 150-174): call the activities
endpoint inside a try; on a thrown error (caught), a non-ok response, a
body whose `json()` rejects (caught), or a missing `activity_types` field,
return the hard-coded default list; a present `activity_types` array is
returned even when empty (a JS array is truthy). -/
def loadActivitiesForProject (projectId : Nat) (store : Store) (net : Nat → FetchOutcome) : List String :=
  match activitiesCallRes projectId store net with
  | some (.resp s b _) =>
      if respOk s then
        match b with
        | none => defaultActivities
        | some rb =>
            match rb.activity_types with
            | none => defaultActivities
            | some l => l
      else defaultActivities
  | some (.thrown _) => defaultActivities
  | none => defaultActivities

/-! ## Date utilities

`formatDate`, `parseDate` (api.ts lines 231-241), over JavaScript strings
modelled as their character sequences. -/

/-- A JavaScript string as its character sequence. -/
abbrev JSStr := List Char

/-- The decimal digit character for a value below ten. -/
def digitChar (d : Nat) : Char :=
  match d with
  | 0 => '0' | 1 => '1' | 2 => '2' | 3 => '3' | 4 => '4'
  | 5 => '5' | 6 => '6' | 7 => '7' | 8 => '8' | _ => '9'

/-- JS number-to-string conversion for a natural number (as produced by
template interpolation of `getFullYear` and friends): its decimal digits. -/
def natToChars (n : Nat) : JSStr :=
  if n = 0 then ['0'] else (Nat.digits 10 n).reverse.map digitChar

/-- JS `Number(s)` restricted to the strings this code path can meet after
splitting on a dash: a non-empty all-digit string parses to its decimal
value, anything else is NaN (modelled as `none`). -/
def charsToNat? (s : JSStr) : Option Nat :=
  if s = [] then none
  else if s.all Char.isDigit then
    some (s.foldl (fun a c => a * 10 + (c.toNat - 48)) 0)
  else none

/-- JS `String.prototype.split("-")`. -/
def splitOnDash (s : JSStr) : List JSStr :=
  match s with
  | [] => [[]]
  | c :: rest =>
      if c = '-' then [] :: splitOnDash rest
      else
        match splitOnDash rest with
        | [] => [[c]]
        | r :: rs => (c :: r) :: rs

/-- A JS `Date` in local time, as the triple the code observes through
`getFullYear`, `getMonth` (zero-based) and `getDate` (one-based). -/
structure JSDate where
  year : Nat
  month0 : Nat
  day : Nat
deriving DecidableEq

/-- Gregorian leap year. -/
def isLeapYear (y : Nat) : Bool :=
  decide ((y % 4 = 0 ∧ y % 100 ≠ 0) ∨ y % 400 = 0)

/-- Days in a zero-based month of a year. -/
def daysInMonth (y : Nat) (m0 : Nat) : Nat :=
  match m0 with
  | 0 => 31
  | 1 => if isLeapYear y then 29 else 28
  | 2 => 31 | 3 => 30 | 4 => 31 | 5 => 30
  | 6 => 31 | 7 => 31 | 8 => 30 | 9 => 31 | 10 => 30
  | _ => 31

/-- The day-overflow normalisation `new Date(y, m, d)` performs: day 0 is
the last day of the previous month, a day beyond the end of the month rolls
into the following months.  Fuel bounds the rolling; `d + 1` always
suffices. -/
def normDay : Nat → Nat → Nat → Nat → JSDate
  | 0, y, m0, d => ⟨y, m0, d⟩
  | fuel + 1, y, m0, d =>
      if d = 0 then
        if m0 = 0 then ⟨y - 1, 11, daysInMonth (y - 1) 11⟩
        else ⟨y, m0 - 1, daysInMonth y (m0 - 1)⟩
      else if d ≤ daysInMonth y m0 then ⟨y, m0, d⟩
      else
        if m0 = 11 then normDay fuel (y + 1) 0 (d - 31)
        else normDay fuel y (m0 + 1) (d - daysInMonth y m0)

/-- Constructor `new Date(year, month, day)` on nonnegative arguments: a year below
100 means 1900 + year, month overflow rolls into years, day overflow
normalises through the calendar. -/
def mkDate (y m d : Nat) : JSDate :=
  let y1 := if y ≤ 99 then 1900 + y else y
  normDay (d + 1) (y1 + m / 12) (m % 12) d

/-- Function `parseDate` (api.ts lines 238-241): split on dashes, convert the three
components with `Number`, and build `new Date(year, month - 1, day)`.
Inputs whose split does not yield three numeric components produce an
invalid date, modelled as `none`. -/
def parseDate (s : JSStr) : Option JSDate :=
  match (splitOnDash s).map charsToNat? with
  | [some y, some m, some d] => some (mkDate y (m - 1) d)
  | _ => none

/-- Padding `String(n).padStart(2, "0")`. -/
def pad2 (s : JSStr) : JSStr :=
  if s.length < 2 then List.replicate (2 - s.length) '0' ++ s else s

/-- Function `formatDate` (api.ts lines 231-236):
`year-MM-DD` with two-digit zero-padded month and day. -/
def formatDate (dt : JSDate) : JSStr :=
  natToChars dt.year ++ ['-'] ++ pad2 (natToChars (dt.month0 + 1)) ++ ['-'] ++ pad2 (natToChars dt.day)

/-- The well-formed date string `YYYY-MM-DD` built from numeric year,
month and day. -/
def dateStr (y m d : Nat) : JSStr :=
  natToChars y ++ ['-'] ++ pad2 (natToChars m) ++ ['-'] ++ pad2 (natToChars d)

/-! ## Header object lemmas -/

lemma getHeader_cons (k1 v1 : String) (rest : Headers) (k : String) :
    getHeader ((k1, v1) :: rest) k = if k1 = k then some v1 else getHeader rest k := by
  by_cases h : k1 = k
  · simp [getHeader, List.find?, h]
  · have hb : (k1 == k) = false := beq_eq_false_iff_ne.mpr h
    simp [getHeader, List.find?, hb, h]

lemma getHeader_setKey_self (h : Headers) (k v : String) :
    getHeader (setKey h (k, v)) k = some v := by
  induction h with
  | nil => simp [setKey, getHeader_cons]
  | cons p rest ih =>
      obtain ⟨k1, v1⟩ := p
      by_cases hk : k1 = k
      · subst hk
        simp [setKey, getHeader_cons]
      · simpa [setKey, hk, getHeader_cons] using ih

lemma getHeader_setKey_ne (h : Headers) (k v k' : String) (hne : k' ≠ k) :
    getHeader (setKey h (k, v)) k' = getHeader h k' := by
  have hkk : ¬ k = k' := fun hh => hne hh.symm
  induction h with
  | nil => simp [setKey, getHeader_cons, getHeader, hkk]
  | cons p rest ih =>
      obtain ⟨k1, v1⟩ := p
      by_cases hk : k1 = k
      · subst hk
        simp [setKey, getHeader_cons, hkk]
      · simp [setKey, hk, getHeader_cons, ih]

lemma getHeader_eq_none_of_not_mem (b : Headers) (k : String) (h : k ∉ b.map Prod.fst) :
    getHeader b k = none := by
  induction b with
  | nil => simp [getHeader]
  | cons p rest ih =>
      obtain ⟨k1, v1⟩ := p
      simp only [List.map_cons, List.mem_cons, not_or] at h
      have hne : ¬ k1 = k := fun hh => h.1 hh.symm
      simpa [getHeader_cons, hne] using ih h.2

lemma getHeader_objSpread_not_mem (a b : Headers) (k : String) (h : k ∉ b.map Prod.fst) :
    getHeader (objSpread a b) k = getHeader a k := by
  induction b generalizing a with
  | nil => simp [objSpread]
  | cons p rest ih =>
      obtain ⟨k1, v1⟩ := p
      simp only [List.map_cons, List.mem_cons, not_or] at h
      have hstep : objSpread a ((k1, v1) :: rest) = objSpread (setKey a (k1, v1)) rest := by
        simp [objSpread]
      rw [hstep, ih _ h.2]
      exact getHeader_setKey_ne a k1 v1 k h.1

/-- Under a duplicate-free caller header object (every JS object literal
is), a key present in the right operand of the spread wins. -/
lemma getHeader_objSpread_right (a b : Headers) (k v : String)
    (hnd : (b.map Prod.fst).Nodup) (hk : getHeader b k = some v) :
    getHeader (objSpread a b) k = some v := by
  induction b generalizing a with
  | nil => simp [getHeader] at hk
  | cons p rest ih =>
      obtain ⟨k1, v1⟩ := p
      simp only [List.map_cons, List.nodup_cons] at hnd
      have hstep : objSpread a ((k1, v1) :: rest) = objSpread (setKey a (k1, v1)) rest := by
        simp [objSpread]
      by_cases hk1 : k1 = k
      · subst hk1
        simp [getHeader_cons] at hk
        subst hk
        rw [hstep, getHeader_objSpread_not_mem _ _ _ hnd.1, getHeader_setKey_self]
      · rw [hstep]
        refine ih (setKey a (k1, v1)) hnd.2 ?_
        simpa [getHeader_cons, hk1] using hk

/-! ## Single-call behaviour of makeAPICall

Each lemma characterises the complete run of one `makeAPICall` under one
shape of network outcomes: the final store, the redirect flag, the settled
result, and the exact trace of network sends. -/

lemma runOne_netErr (url : String) (options : Options) (store : Store)
    (net : Nat → FetchOutcome) (e : String) (h0 : net 0 = .netErr e) :
    runOne url options store net =
      { store := store, redirected := false,
        calls := [{ url := url, options := options, net := net, phase := .done (.thrown e) }],
        trace := [⟨0, .primaryFetch, primaryRequest url options store.access_token⟩] } := by
  simp [runOne, run, step, stepCall, mkSys, mkCall, h0, List.foldl]

lemma runOne_non401 (url : String) (options : Options) (store : Store)
    (net : Nat → FetchOutcome) (s : Nat) (b : Option RespBody) (tag : String)
    (h0 : net 0 = .resp s b tag) (hs : s ≠ 401) :
    runOne url options store net =
      { store := store, redirected := false,
        calls := [{ url := url, options := options, net := net, phase := .done (.resp s b tag) }],
        trace := [⟨0, .primaryFetch, primaryRequest url options store.access_token⟩] } := by
  simp [runOne, run, step, stepCall, mkSys, mkCall, h0, hs, List.foldl]

lemma runOne_401_noRefreshToken (url : String) (options : Options) (store : Store)
    (net : Nat → FetchOutcome) (b : Option RespBody) (tag : String)
    (h0 : net 0 = .resp 401 b tag) (hrt : store.refresh_token = none) :
    runOne url options store net =
      { store := teardownStore, redirected := true,
        calls := [{ url := url, options := options, net := net, phase := .done (.resp 401 b tag) }],
        trace := [⟨0, .primaryFetch, primaryRequest url options store.access_token⟩] } := by
  simp [runOne, run, step, stepCall, mkSys, mkCall, h0, hrt, List.foldl]

lemma runOne_401_refreshNetErr (url : String) (options : Options) (store : Store)
    (net : Nat → FetchOutcome) (b : Option RespBody) (tag rt e : String)
    (h0 : net 0 = .resp 401 b tag) (hrt : store.refresh_token = some rt)
    (h1 : net 1 = .netErr e) :
    runOne url options store net =
      { store := teardownStore, redirected := true,
        calls := [{ url := url, options := options, net := net, phase := .done (.resp 401 b tag) }],
        trace := [⟨0, .primaryFetch, primaryRequest url options store.access_token⟩,
                  ⟨0, .refreshFetch, refreshRequest rt⟩] } := by
  simp [runOne, run, step, stepCall, mkSys, mkCall, h0, hrt, h1, List.foldl]

lemma runOne_401_refreshNotOk (url : String) (options : Options) (store : Store)
    (net : Nat → FetchOutcome) (b b2 : Option RespBody) (tag rt t2 : String) (s2 : Nat)
    (h0 : net 0 = .resp 401 b tag) (hrt : store.refresh_token = some rt)
    (h1 : net 1 = .resp s2 b2 t2) (hs2 : respOk s2 = false) :
    runOne url options store net =
      { store := teardownStore, redirected := true,
        calls := [{ url := url, options := options, net := net, phase := .done (.resp 401 b tag) }],
        trace := [⟨0, .primaryFetch, primaryRequest url options store.access_token⟩,
                  ⟨0, .refreshFetch, refreshRequest rt⟩] } := by
  simp [runOne, run, step, stepCall, mkSys, mkCall, h0, hrt, h1, hs2, List.foldl]

lemma runOne_401_refreshJsonErr (url : String) (options : Options) (store : Store)
    (net : Nat → FetchOutcome) (b : Option RespBody) (tag rt t2 : String) (s2 : Nat)
    (h0 : net 0 = .resp 401 b tag) (hrt : store.refresh_token = some rt)
    (h1 : net 1 = .resp s2 none t2) (hs2 : respOk s2 = true) :
    runOne url options store net =
      { store := teardownStore, redirected := true,
        calls := [{ url := url, options := options, net := net, phase := .done (.resp 401 b tag) }],
        trace := [⟨0, .primaryFetch, primaryRequest url options store.access_token⟩,
                  ⟨0, .refreshFetch, refreshRequest rt⟩] } := by
  simp [runOne, run, step, stepCall, mkSys, mkCall, h0, hrt, h1, hs2, List.foldl]

lemma runOne_401_refreshOk (url : String) (options : Options) (store : Store)
    (net : Nat → FetchOutcome) (b : Option RespBody) (rb : RespBody)
    (tag rt t2 : String) (s2 : Nat)
    (h0 : net 0 = .resp 401 b tag) (hrt : store.refresh_token = some rt)
    (h1 : net 1 = .resp s2 (some rb) t2) (hs2 : respOk s2 = true) :
    runOne url options store net =
      { store := { access_token := some (rb.access.getD "undefined"), refresh_token := some rt },
        redirected := false,
        calls := [{ url := url, options := options, net := net,
                    phase := match net 2 with
                             | .netErr e => .done (.thrown e)
                             | .resp s3 b3 tag3 => .done (.resp s3 b3 tag3) }],
        trace := [⟨0, .primaryFetch, primaryRequest url options store.access_token⟩,
                  ⟨0, .refreshFetch, refreshRequest rt⟩,
                  ⟨0, .retryFetch, retryRequest url options (mergedHeaders store.access_token options)
                                     (rb.access.getD "undefined")⟩] } := by
  cases h2 : net 2 with
  | resp s3 b3 tag3 =>
      simp [runOne, run, step, stepCall, mkSys, mkCall, h0, hrt, h1, hs2, h2, List.foldl]
  | netErr e =>
      simp [runOne, run, step, stepCall, mkSys, mkCall, h0, hrt, h1, hs2, h2, List.foldl]

/-! ## The per-call refresh bound under arbitrary interleaving

`makeAPICall` consults no cross-call state before refreshing, so each call
that observes a 401 performs its own refresh round-trip.  What does hold
is a per-call bound: one invocation never sends the refresh POST twice.
The invariant below proves that bound for every schedule. -/

/-- Control points from which a call has not yet sent its refresh POST. -/
def noRefreshYet : TPhase → Prop
  | .start => True
  | .awaitPrimary _ => True
  | .awaitRefresh _ _ _ _ => False
  | .awaitRetry => False
  | .done _ => False

/-- Refresh sends among the events of one block. -/
def refreshEvCount (evs : List (Role × Request)) : Nat :=
  evs.countP (fun p => decide (p.1 = Role.refreshFetch))

lemma refreshCountBy_append (t1 t2 : List Event) (tid : Nat) :
    refreshCountBy (t1 ++ t2) tid = refreshCountBy t1 tid + refreshCountBy t2 tid := by
  simp [refreshCountBy, List.countP_append]

lemma refreshCountBy_map (evs : List (Role × Request)) (tid tid' : Nat) :
    refreshCountBy (evs.map (fun p => { tid := tid, role := p.1, req := p.2 })) tid' =
      if tid' = tid then refreshEvCount evs else 0 := by
  by_cases h : tid' = tid
  · subst h
    have hfun : ((fun e : Event => decide (e.tid = tid') && decide (e.role = Role.refreshFetch)) ∘
        (fun p : Role × Request => { tid := tid', role := p.1, req := p.2 })) =
        (fun p : Role × Request => decide (p.1 = Role.refreshFetch)) := by
      funext p
      simp
    simp [refreshCountBy, refreshEvCount, List.countP_map, hfun]
  · have hdec : (decide (tid = tid') : Bool) = false := decide_eq_false (fun hh => h hh.symm)
    have hfun : ((fun e : Event => decide (e.tid = tid') && decide (e.role = Role.refreshFetch)) ∘
        (fun p : Role × Request => { tid := tid, role := p.1, req := p.2 })) =
        (fun _ : Role × Request => false) := by
      funext p
      simp [hdec]
    simp [refreshCountBy, List.countP_map, hfun, if_neg h]

/-- One block emits at most one refresh POST, and only on the transition
that leaves the pre-refresh control points for good. -/
lemma stepCall_refresh_spec (store : Store) (red : Bool) (c : Call) :
    (refreshEvCount (stepCall store red c).2.2.2 = 0 ∧
       (noRefreshYet (stepCall store red c).1.phase → noRefreshYet c.phase)) ∨
    (refreshEvCount (stepCall store red c).2.2.2 = 1 ∧
       noRefreshYet c.phase ∧ ¬ noRefreshYet (stepCall store red c).1.phase) := by
  cases hph : c.phase with
  | start =>
      left
      simp [stepCall, hph, refreshEvCount, noRefreshYet]
  | awaitPrimary merged =>
      cases h0 : c.net 0 with
      | netErr e =>
          left
          simp [stepCall, hph, h0, refreshEvCount, noRefreshYet]
      | resp s b tag =>
          by_cases hs : s = 401
          · subst hs
            cases hrt : store.refresh_token with
            | none =>
                left
                simp [stepCall, hph, h0, hrt, refreshEvCount, noRefreshYet]
            | some rt =>
                right
                simp [stepCall, hph, h0, hrt, refreshEvCount, noRefreshYet]
          · left
            simp [stepCall, hph, h0, hs, refreshEvCount, noRefreshYet]
  | awaitRefresh merged s b tag =>
      cases h1 : c.net 1 with
      | netErr e =>
          left
          simp [stepCall, hph, h1, refreshEvCount, noRefreshYet]
      | resp s2 b2 t2 =>
          by_cases hs2 : respOk s2 = true
          · cases b2 with
            | none =>
                left
                simp [stepCall, hph, h1, hs2, refreshEvCount, noRefreshYet]
            | some rb =>
                left
                simp [stepCall, hph, h1, hs2, refreshEvCount, noRefreshYet]
          · left
            simp [stepCall, hph, h1, Bool.of_not_eq_true hs2, refreshEvCount, noRefreshYet]
  | awaitRetry =>
      cases h2 : c.net 2 with
      | netErr e =>
          left
          simp [stepCall, hph, h2, refreshEvCount, noRefreshYet]
      | resp s3 b3 t3 =>
          left
          simp [stepCall, hph, h2, refreshEvCount, noRefreshYet]
  | done r =>
      left
      simp [stepCall, hph, refreshEvCount, noRefreshYet, hph]

/-- The interleaving invariant: every call has sent at most one refresh
POST, and none at all while it still sits before its refresh decision. -/
def Inv (sys : Sys) : Prop :=
  ∀ tid, refreshCountBy sys.trace tid ≤ 1 ∧
    (∀ c, sys.calls[tid]? = some c → noRefreshYet c.phase → refreshCountBy sys.trace tid = 0)

lemma inv_step (sys : Sys) (tid : Nat) (h : Inv sys) : Inv (step sys tid) := by
  rcases hc : sys.calls[tid]? with _ | c
  · simpa [step, hc] using h
  · have hlt : tid < sys.calls.length := by
      by_contra hge
      rw [List.getElem?_eq_none (Nat.le_of_not_lt hge)] at hc
      exact Option.noConfusion hc
    intro tid'
    rcases stepCall_refresh_spec sys.store sys.redirected c with ⟨hz, himp⟩ | ⟨ho, hbef, haft⟩
    · by_cases ht : tid' = tid
      · subst ht
        constructor
        · simp only [step, hc]
          rw [refreshCountBy_append, refreshCountBy_map]
          simp only [if_pos rfl, hz]
          exact Nat.le_trans (Nat.le_of_eq (Nat.add_zero _)) (h tid').1
        · intro c' hc' hno
          simp only [step, hc] at hc'
          rw [List.getElem?_set_eq_of_lt _ hlt] at hc'
          cases hc'
          simp only [step, hc]
          rw [refreshCountBy_append, refreshCountBy_map]
          simp only [if_pos rfl, hz, Nat.add_zero]
          exact (h tid').2 c hc (himp hno)
      · constructor
        · simp only [step, hc]
          rw [refreshCountBy_append, refreshCountBy_map]
          simp only [if_neg ht, Nat.add_zero]
          exact (h tid').1
        · intro c' hc' hno
          simp only [step, hc] at hc'
          rw [List.getElem?_set_ne (fun hh => ht hh.symm)] at hc'
          simp only [step, hc]
          rw [refreshCountBy_append, refreshCountBy_map]
          simp only [if_neg ht, Nat.add_zero]
          exact (h tid').2 c' hc' hno
    · by_cases ht : tid' = tid
      · subst ht
        have hzero : refreshCountBy sys.trace tid' = 0 := (h tid').2 c hc hbef
        constructor
        · simp only [step, hc]
          rw [refreshCountBy_append, refreshCountBy_map]
          simp [ho, hzero]
        · intro c' hc' hno
          simp only [step, hc] at hc'
          rw [List.getElem?_set_eq_of_lt _ hlt] at hc'
          cases hc'
          exact absurd hno haft
      · constructor
        · simp only [step, hc]
          rw [refreshCountBy_append, refreshCountBy_map]
          simp only [if_neg ht, Nat.add_zero]
          exact (h tid').1
        · intro c' hc' hno
          simp only [step, hc] at hc'
          rw [List.getElem?_set_ne (fun hh => ht hh.symm)] at hc'
          simp only [step, hc]
          rw [refreshCountBy_append, refreshCountBy_map]
          simp only [if_neg ht, Nat.add_zero]
          exact (h tid').2 c' hc' hno

lemma inv_run (sys : Sys) (sched : List Nat) (h : Inv sys) : Inv (run sys sched) := by
  induction sched generalizing sys with
  | nil => simpa [run] using h
  | cons tid rest ih =>
      have : run sys (tid :: rest) = run (step sys tid) rest := by
        simp [run, List.foldl]
      rw [this]
      exact ih _ (inv_step sys tid h)

/-- Fresh invocations: all calls start at `TPhase.start`. -/
def mkCalls (specs : List (String × Options × (Nat → FetchOutcome))) : List Call :=
  specs.map (fun x => mkCall x.1 x.2.1 x.2.2)

lemma inv_init (store : Store) (specs : List (String × Options × (Nat → FetchOutcome))) :
    Inv (mkSys store (mkCalls specs)) := by
  intro tid
  constructor
  · simp [mkSys, refreshCountBy]
  · intro c hc hno
    simp [mkSys, refreshCountBy]

/-! ## Date round-trip lemmas -/

/-- The value read back by the digit-string fold of `charsToNat?`. -/
def digitsVal (s : JSStr) : Nat :=
  s.foldl (fun a c => a * 10 + (c.toNat - 48)) 0

lemma digitChar_isDigit (d : Nat) : (digitChar d).isDigit = true := by
  unfold digitChar
  split <;> decide

lemma digitChar_toNat (d : Nat) (hd : d < 10) : (digitChar d).toNat - 48 = d := by
  interval_cases d <;> decide

lemma digit_ne_dash (c : Char) (h : c.isDigit = true) : c ≠ '-' := by
  intro hh
  subst hh
  exact Bool.noConfusion h

lemma allDigits_natToChars (n : Nat) : ∀ c ∈ natToChars n, c.isDigit = true := by
  intro c hc
  unfold natToChars at hc
  by_cases hn : n = 0
  · simp [hn] at hc
    subst hc
    decide
  · simp [hn] at hc
    obtain ⟨d, _, rfl⟩ := hc
    exact digitChar_isDigit d

lemma natToChars_ne_nil (n : Nat) : natToChars n ≠ [] := by
  unfold natToChars
  by_cases hn : n = 0
  · simp [hn]
  · simp only [hn, if_false]
    intro hcon
    have hne : Nat.digits 10 n ≠ [] := (@Nat.digits_ne_nil_iff_ne_zero 10 n).mpr hn
    simp at hcon
    exact hne hcon

lemma allDigits_pad2 (s : JSStr) (h : ∀ c ∈ s, c.isDigit = true) :
    ∀ c ∈ pad2 s, c.isDigit = true := by
  intro c hc
  unfold pad2 at hc
  by_cases hl : s.length < 2
  · simp only [hl, if_true, List.mem_append] at hc
    rcases hc with hc | hc
    · have := List.eq_of_mem_replicate hc
      subst this
      decide
    · exact h c hc
  · simp only [hl, if_false] at hc
    exact h c hc

lemma pad2_ne_nil (s : JSStr) (h : s ≠ []) : pad2 s ≠ [] := by
  unfold pad2
  by_cases hl : s.length < 2
  · simp only [hl, if_true]
    intro hcon
    exact h (List.append_eq_nil.mp hcon).2
  · simpa [hl] using h

lemma splitOnDash_nodash (s : JSStr) (h : ∀ c ∈ s, c ≠ '-') : splitOnDash s = [s] := by
  induction s with
  | nil => rfl
  | cons c rest ih =>
      have hc : ¬ c = '-' := h c (List.mem_cons_self c rest)
      rw [splitOnDash, if_neg hc, ih (fun x hx => h x (List.mem_cons_of_mem c hx))]

lemma splitOnDash_append (l r : JSStr) (h : ∀ c ∈ l, c ≠ '-') :
    splitOnDash (l ++ '-' :: r) = l :: splitOnDash r := by
  induction l with
  | nil => simp [splitOnDash]
  | cons c rest ih =>
      have hc : ¬ c = '-' := h c (List.mem_cons_self c rest)
      rw [List.cons_append, splitOnDash, if_neg hc,
        ih (fun x hx => h x (List.mem_cons_of_mem c hx))]

lemma foldl_digits (L : List Nat) (hL : ∀ x ∈ L, x < 10) (a : Nat) :
    (L.reverse.map digitChar).foldl (fun acc c => acc * 10 + (c.toNat - 48)) a
      = a * 10 ^ L.length + Nat.ofDigits 10 L := by
  induction L generalizing a with
  | nil => simp [Nat.ofDigits_nil]
  | cons x L ih =>
      have hx : x < 10 := hL x (List.mem_cons_self x L)
      have hrest : ∀ y ∈ L, y < 10 := fun y hy => hL y (List.mem_cons_of_mem x hy)
      rw [List.reverse_cons, List.map_append, List.foldl_append, ih hrest]
      simp only [List.map_cons, List.map_nil, List.foldl_cons, List.foldl_nil,
        Nat.ofDigits_cons, List.length_cons, digitChar_toNat x hx]
      ring

lemma digitsVal_natToChars (n : Nat) : digitsVal (natToChars n) = n := by
  unfold digitsVal natToChars
  by_cases hn : n = 0
  · simp [hn]
  · simp only [hn, if_false]
    rw [foldl_digits _ (fun x hx => Nat.digits_lt_base (by norm_num) hx) 0]
    simp [Nat.ofDigits_digits]

lemma digitsVal_replicate_zero (k : Nat) (s : JSStr) :
    digitsVal (List.replicate k '0' ++ s) = digitsVal s := by
  induction k with
  | zero => simp
  | succ k ih => simpa [digitsVal, List.foldl_cons, List.replicate_succ] using ih

lemma digitsVal_pad2 (s : JSStr) : digitsVal (pad2 s) = digitsVal s := by
  unfold pad2
  by_cases hl : s.length < 2
  · simp [hl, digitsVal_replicate_zero]
  · simp [hl]

lemma charsToNat?_eq (s : JSStr) (h1 : s ≠ []) (h2 : ∀ c ∈ s, c.isDigit = true) :
    charsToNat? s = some (digitsVal s) := by
  have hall : s.all Char.isDigit = true := List.all_eq_true.mpr h2
  simp [charsToNat?, h1, hall, digitsVal]

lemma charsToNat?_natToChars (n : Nat) : charsToNat? (natToChars n) = some n := by
  rw [charsToNat?_eq _ (natToChars_ne_nil n) (allDigits_natToChars n), digitsVal_natToChars]

lemma charsToNat?_pad2_natToChars (n : Nat) : charsToNat? (pad2 (natToChars n)) = some n := by
  rw [charsToNat?_eq _ (pad2_ne_nil _ (natToChars_ne_nil n))
      (allDigits_pad2 _ (allDigits_natToChars n)),
    digitsVal_pad2, digitsVal_natToChars]

lemma mkDate_valid (y m d : Nat) (hy : 100 ≤ y) (hm1 : 1 ≤ m) (hm2 : m ≤ 12)
    (hd1 : 1 ≤ d) (hd2 : d ≤ daysInMonth y (m - 1)) :
    mkDate y (m - 1) d = ⟨y, m - 1, d⟩ := by
  have hy99 : ¬ y ≤ 99 := by omega
  have hmlt : m - 1 < 12 := by omega
  have hd0 : ¬ d = 0 := by omega
  unfold mkDate
  simp only [hy99, if_false, Nat.div_eq_of_lt hmlt, Nat.mod_eq_of_lt hmlt, Nat.add_zero]
  rw [normDay, if_neg hd0, if_pos hd2]

/-! ## Remaining shared helper lemmas -/

lemma getHeader_objSpread_singleton (m : Headers) (k v : String) :
    getHeader (objSpread m [(k, v)]) k = some v := by
  simpa [objSpread] using getHeader_setKey_self m k v

lemma getHeader_none_not_mem (b : Headers) (k : String) (h : getHeader b k = none) :
    k ∉ b.map Prod.fst := by
  induction b with
  | nil => simp
  | cons p rest ih =>
      obtain ⟨k1, v1⟩ := p
      by_cases hk : k1 = k
      · subst hk
        simp [getHeader_cons] at h
      · rw [getHeader_cons, if_neg hk] at h
        simp only [List.map_cons, List.mem_cons, not_or]
        exact ⟨fun hh => hk hh.symm, ih h⟩

/-- Whatever the network outcomes, the first send of a `makeAPICall` is the
primary request with the merged headers computed from the token stored at
call time. -/
lemma runOne_trace_head (url : String) (options : Options) (store : Store)
    (net : Nat → FetchOutcome) :
    (runOne url options store net).trace.head? =
      some ⟨0, .primaryFetch, primaryRequest url options store.access_token⟩ := by
  cases h0 : net 0 with
  | netErr e =>
      rw [runOne_netErr url options store net e h0]
      rfl
  | resp s b tag =>
      by_cases hs : s = 401
      · subst hs
        cases hrt : store.refresh_token with
        | none =>
            rw [runOne_401_noRefreshToken url options store net b tag h0 hrt]
            rfl
        | some rt =>
            cases h1 : net 1 with
            | netErr e =>
                rw [runOne_401_refreshNetErr url options store net b tag rt e h0 hrt h1]
                rfl
            | resp s2 b2 t2 =>
                by_cases hs2 : respOk s2 = true
                · cases b2 with
                  | none =>
                      rw [runOne_401_refreshJsonErr url options store net b tag rt t2 s2 h0 hrt h1 hs2]
                      rfl
                  | some rb =>
                      rw [runOne_401_refreshOk url options store net b rb tag rt t2 s2 h0 hrt h1 hs2]
                      rfl
                · rw [runOne_401_refreshNotOk url options store net b b2 tag rt t2 s2 h0 hrt h1
                      (Bool.of_not_eq_true hs2)]
                  rfl
      · rw [runOne_non401 url options store net s b tag h0 hs]
        rfl

/-! ## Claim C1 — single-flight refresh -/

/-- Network script of the concurrency scenarios: the primary request is
answered 401, the refresh succeeds with a fresh access token, the retried
request succeeds. -/
def demoNet : Nat → FetchOutcome := fun n =>
  match n with
  | 0 => .resp 401 none "orig"
  | 1 => .resp 200 (some { access := some "T2", activity_types := none }) "refreshed"
  | _ => .resp 200 none "ok"

/-- Two concurrent `makeAPICall` invocations against a store holding a
valid refresh token, both of whose primary requests are answered 401. -/
def twoConcurrent : Sys :=
  mkSys { access_token := some "T1", refresh_token := some "R1" }
    (mkCalls [("/api/x", noOptions, demoNet), ("/api/y", noOptions, demoNet)])

/-- The fair interleaving: both primaries are issued (and answered 401 by
the network) before either caller runs its 401 handler — the specified
"two concurrent calls both get 401 simultaneously with no refresh in
progress" scenario. -/
def fairSched : List Nat := [0, 1, 0, 1, 0, 1, 0, 1]

/-- Claim C1 counterexample: two concurrently issued `request()` calls
whose primary responses are both 401 while no refresh is in progress make
two POSTs to the token-refresh endpoint, not exactly one: `makeAPICall`
keeps no refresh-in-progress flag and no queue, so each 401 handler runs
its own refresh round-trip (both calls still settle with their retried
200 responses). -/
theorem c1_counterexample_two_refresh_posts :
    countRole (run twoConcurrent fairSched) .refreshFetch = 2 ∧
    countRole (run twoConcurrent fairSched) .refreshFetch ≠ 1 ∧
    callResult (run twoConcurrent fairSched) 0 = some (.resp 200 none "ok") ∧
    callResult (run twoConcurrent fairSched) 1 = some (.resp 200 none "ok") := by
  decide

/-- Claim C1 amended: the refresh POST is issued at most once per
`request()` call — not once per refresh episode.  Under every schedule of
any set of concurrently issued calls, each call sends at most one refresh
POST; in the two-call concurrent-401 scenario each of the two calls sends
exactly one, for two POSTs in total. -/
theorem c1_amended_one_refresh_post_per_call :
    (∀ (store : Store) (specs : List (String × Options × (Nat → FetchOutcome)))
       (sched : List Nat) (tid : Nat),
        refreshCountBy (run (mkSys store (mkCalls specs)) sched).trace tid ≤ 1) ∧
    refreshCountBy (run twoConcurrent fairSched).trace 0 = 1 ∧
    refreshCountBy (run twoConcurrent fairSched).trace 1 = 1 := by
  refine ⟨?_, by decide, by decide⟩
  intro store specs sched tid
  exact (inv_run _ sched (inv_init store specs) tid).1

/-! ## Claim C2 — 401 with no stored refresh token -/

/-- Network script answering every fetch with a 401 response. -/
def c2net : Nat → FetchOutcome := fun _ => .resp 401 none "orig-401"

/-- Claim C2 counterexample: with no stored refresh token, a 401 primary
response does not make the call fail — `makeAPICall` returns the original
401 response object as an ordinary resolved result (api.ts line 87)
rather than rejecting with `AuthenticationExpired`. -/
theorem c2_counterexample_resolves_with_401_response :
    callResult (runOne "/api/x" noOptions
      { access_token := some "T1", refresh_token := none } c2net) 0
      = some (.resp 401 none "orig-401") := by
  decide

/-- Claim C2 amended: on a 401 primary response with no stored refresh
token, both stored tokens are cleared and the session is redirected to the
login view before the call settles, but the call resolves with the
original 401 response (no rejection), and no refresh POST is sent. -/
theorem c2_amended_teardown_resolves_with_response (url : String) (options : Options)
    (store : Store) (net : Nat → FetchOutcome) (b : Option RespBody) (tag : String)
    (h0 : net 0 = .resp 401 b tag) (hrt : store.refresh_token = none) :
    callResult (runOne url options store net) 0 = some (.resp 401 b tag) ∧
    (runOne url options store net).store = teardownStore ∧
    (runOne url options store net).redirected = true ∧
    countRole (runOne url options store net) .refreshFetch = 0 := by
  have h := runOne_401_noRefreshToken url options store net b tag h0 hrt
  refine ⟨?_, ?_, ?_, ?_⟩ <;> simp [h, callResult, countRole]

/-- Witness for the amended C2 at a concrete input. -/
theorem c2_amended_witness :
    callResult (runOne "/api/w" noOptions
      { access_token := some "TW", refresh_token := none } c2net) 0
      = some (.resp 401 none "orig-401") ∧
    (runOne "/api/w" noOptions { access_token := some "TW", refresh_token := none } c2net).store
      = teardownStore ∧
    (runOne "/api/w" noOptions
      { access_token := some "TW", refresh_token := none } c2net).redirected = true ∧
    countRole (runOne "/api/w" noOptions
      { access_token := some "TW", refresh_token := none } c2net) .refreshFetch = 0 :=
  c2_amended_teardown_resolves_with_response "/api/w" noOptions
    { access_token := some "TW", refresh_token := none } c2net none "orig-401" rfl rfl

/-! ## Claim C3 — 401 with failing refresh round-trip -/

/-- Network script: primary answered 401, refresh endpoint answers 403. -/
def c3net : Nat → FetchOutcome := fun n =>
  match n with
  | 0 => .resp 401 none "orig-401-c3"
  | _ => .resp 403 none "refresh-denied"

/-- Claim C3 counterexample: when the refresh round-trip is rejected
(non-2xx), the result of the original caller is not a `TokenRefreshFailed`
rejection — `makeAPICall` resolves with the original 401 response object
(api.ts line 87). -/
theorem c3_counterexample_resolves_with_401_response :
    callResult (runOne "/api/x" noOptions
      { access_token := some "T1", refresh_token := some "R1" } c3net) 0
      = some (.resp 401 none "orig-401-c3") := by
  decide

/-- Claim C3 amended: on a 401 primary response followed by a refresh
round-trip that returns non-2xx or fails at the transport level, both
stored tokens are cleared and the session is redirected to login, exactly
one refresh POST and no retry are sent, but the call resolves with the
original 401 response (no rejection). -/
theorem c3_amended_teardown_resolves_with_response (url : String) (options : Options)
    (store : Store) (net : Nat → FetchOutcome) (b b2 : Option RespBody)
    (tag rt t2 e : String) (s2 : Nat)
    (h0 : net 0 = .resp 401 b tag) (hrt : store.refresh_token = some rt)
    (hfail : net 1 = .netErr e ∨ (net 1 = .resp s2 b2 t2 ∧ respOk s2 = false)) :
    callResult (runOne url options store net) 0 = some (.resp 401 b tag) ∧
    (runOne url options store net).store = teardownStore ∧
    (runOne url options store net).redirected = true ∧
    countRole (runOne url options store net) .refreshFetch = 1 ∧
    countRole (runOne url options store net) .retryFetch = 0 := by
  rcases hfail with h1 | ⟨h1, hs2⟩
  · have h := runOne_401_refreshNetErr url options store net b tag rt e h0 hrt h1
    refine ⟨?_, ?_, ?_, ?_, ?_⟩ <;> simp [h, callResult, countRole]
  · have h := runOne_401_refreshNotOk url options store net b b2 tag rt t2 s2 h0 hrt h1 hs2
    refine ⟨?_, ?_, ?_, ?_, ?_⟩ <;> simp [h, callResult, countRole]

/-- Witness for the amended C3 at a concrete input. -/
theorem c3_amended_witness :
    callResult (runOne "/api/z" noOptions
      { access_token := some "T1", refresh_token := some "R1" } c3net) 0
      = some (.resp 401 none "orig-401-c3") ∧
    (runOne "/api/z" noOptions
      { access_token := some "T1", refresh_token := some "R1" } c3net).store = teardownStore ∧
    (runOne "/api/z" noOptions
      { access_token := some "T1", refresh_token := some "R1" } c3net).redirected = true ∧
    countRole (runOne "/api/z" noOptions
      { access_token := some "T1", refresh_token := some "R1" } c3net) .refreshFetch = 1 ∧
    countRole (runOne "/api/z" noOptions
      { access_token := some "T1", refresh_token := some "R1" } c3net) .retryFetch = 0 :=
  c3_amended_teardown_resolves_with_response "/api/z" noOptions
    { access_token := some "T1", refresh_token := some "R1" } c3net none none
    "orig-401-c3" "R1" "refresh-denied" "unused" 403 rfl rfl (Or.inr ⟨rfl, rfl⟩)

/-! ## Claim C4 — no infinite retry -/

/-- Whatever the network outcomes: the request of the caller is sent exactly
once as the primary and at most once as the retry (the only two call sites
that send it), and at most one refresh POST is made. -/
lemma runOne_send_counts (url : String) (options : Options) (store : Store)
    (net : Nat → FetchOutcome) :
    countRole (runOne url options store net) .primaryFetch = 1 ∧
    countRole (runOne url options store net) .refreshFetch ≤ 1 ∧
    countRole (runOne url options store net) .retryFetch ≤ 1 := by
  cases h0 : net 0 with
  | netErr e =>
      rw [runOne_netErr url options store net e h0]
      simp [countRole]
  | resp s b tag =>
      by_cases hs : s = 401
      · subst hs
        cases hrt : store.refresh_token with
        | none =>
            rw [runOne_401_noRefreshToken url options store net b tag h0 hrt]
            simp [countRole]
        | some rt =>
            cases h1 : net 1 with
            | netErr e =>
                rw [runOne_401_refreshNetErr url options store net b tag rt e h0 hrt h1]
                simp [countRole]
            | resp s2 b2 t2 =>
                by_cases hs2 : respOk s2 = true
                · cases b2 with
                  | none =>
                      rw [runOne_401_refreshJsonErr url options store net b tag rt t2 s2 h0 hrt h1 hs2]
                      simp [countRole]
                  | some rb =>
                      rw [runOne_401_refreshOk url options store net b rb tag rt t2 s2 h0 hrt h1 hs2]
                      simp [countRole]
                · rw [runOne_401_refreshNotOk url options store net b b2 tag rt t2 s2 h0 hrt h1
                      (Bool.of_not_eq_true hs2)]
                  simp [countRole]
      · rw [runOne_non401 url options store net s b tag h0 hs]
        simp [countRole]

/-- Claim C4: at most two network sends of the request of the caller occur (one
primary, at most one retry), and when the retried request itself comes
back 401 after a successful refresh, that 401 response is surfaced to the
caller as the settled result while exactly one refresh POST was made — no
second refresh is attempted. -/
theorem c4_no_infinite_retry (url : String) (options : Options) (store : Store)
    (net : Nat → FetchOutcome) :
    (countRole (runOne url options store net) .primaryFetch = 1 ∧
     countRole (runOne url options store net) .refreshFetch ≤ 1 ∧
     countRole (runOne url options store net) .retryFetch ≤ 1) ∧
    (∀ (b b3 : Option RespBody) (rb : RespBody) (tag rt t2 tag3 : String) (s2 : Nat),
       net 0 = .resp 401 b tag → store.refresh_token = some rt →
       net 1 = .resp s2 (some rb) t2 → respOk s2 = true →
       net 2 = .resp 401 b3 tag3 →
       callResult (runOne url options store net) 0 = some (.resp 401 b3 tag3) ∧
       countRole (runOne url options store net) .refreshFetch = 1 ∧
       countRole (runOne url options store net) .retryFetch = 1) := by
  refine ⟨runOne_send_counts url options store net, ?_⟩
  intro b b3 rb tag rt t2 tag3 s2 h0 hrt h1 hs2 h2
  have h := runOne_401_refreshOk url options store net b rb tag rt t2 s2 h0 hrt h1 hs2
  refine ⟨?_, ?_, ?_⟩ <;> simp [h, h2, callResult, countRole]

/-- Network script for the C4 witness: the retried request is answered 401
again. -/
def c4net : Nat → FetchOutcome := fun n =>
  match n with
  | 0 => .resp 401 none "first-401"
  | 1 => .resp 200 (some { access := some "T2", activity_types := none }) "refreshed"
  | _ => .resp 401 none "second-401"

/-- Witness for C4 at a concrete input. -/
theorem c4_witness :
    (countRole (runOne "/api/x" noOptions
       { access_token := some "T1", refresh_token := some "R1" } c4net) .primaryFetch = 1 ∧
     countRole (runOne "/api/x" noOptions
       { access_token := some "T1", refresh_token := some "R1" } c4net) .refreshFetch ≤ 1 ∧
     countRole (runOne "/api/x" noOptions
       { access_token := some "T1", refresh_token := some "R1" } c4net) .retryFetch ≤ 1) ∧
    (callResult (runOne "/api/x" noOptions
       { access_token := some "T1", refresh_token := some "R1" } c4net) 0
       = some (.resp 401 none "second-401") ∧
     countRole (runOne "/api/x" noOptions
       { access_token := some "T1", refresh_token := some "R1" } c4net) .refreshFetch = 1 ∧
     countRole (runOne "/api/x" noOptions
       { access_token := some "T1", refresh_token := some "R1" } c4net) .retryFetch = 1) :=
  ⟨(c4_no_infinite_retry "/api/x" noOptions
      { access_token := some "T1", refresh_token := some "R1" } c4net).1,
   (c4_no_infinite_retry "/api/x" noOptions
      { access_token := some "T1", refresh_token := some "R1" } c4net).2
     none none { access := some "T2", activity_types := none }
     "first-401" "R1" "refreshed" "second-401" 200 rfl rfl rfl rfl rfl⟩

/-! ## Claim C5 — header composition -/

/-- Caller options carrying an explicit `Authorization` header. -/
def c5options : Options := { method := none, headers := [("Authorization", "X")], body := none }

/-- Network script answering 200 immediately. -/
def c5net : Nat → FetchOutcome := fun _ => .resp 200 none "ok-200"

/-- The headers `makeAPICall` sends in the C5 counterexample. -/
def c5sentHeaders : Headers := [("Content-Type", "application/json"), ("Authorization", "X")]

/-- Claim C5 counterexample: with access token `"T"` stored and the caller
supplying `Authorization: X`, the primary request is sent with
`Authorization: X` — the caller-supplied value wins over the computed
`Bearer T`, because `...options.headers` is spread last (api.ts lines
48-51).  The exception the claim makes for the `Authorization` header does not
hold on the primary request. -/
theorem c5_counterexample_caller_authorization_wins :
    (runOne "/api/x" c5options
      { access_token := some "T", refresh_token := none } c5net).trace =
      [⟨0, .primaryFetch,
        { url := "/api/x", method := "GET", headers := c5sentHeaders, body := none }⟩] ∧
    getHeader c5sentHeaders "Authorization" ≠ some ("Bearer " ++ "T") := by
  decide

/-- Claim C5 amended: the headers of the primary request are the JS spread of
the defaults (`Content-Type`, plus `Authorization: Bearer <token>` when a
token is stored) with the headers of the caller, so the caller wins on every
conflict — including `Authorization`.  Only the retry sent after a
successful refresh forces `Authorization` to the newly stored token. -/
theorem c5_amended_caller_wins_all_conflicts (url : String) (options : Options)
    (store : Store) (net : Nat → FetchOutcome) :
    ((runOne url options store net).trace.head? =
       some ⟨0, .primaryFetch, primaryRequest url options store.access_token⟩ ∧
     (primaryRequest url options store.access_token).headers =
       objSpread (defaultHeaders store.access_token) options.headers) ∧
    (∀ (k v : String), (options.headers.map Prod.fst).Nodup →
       getHeader options.headers k = some v →
       getHeader (primaryRequest url options store.access_token).headers k = some v) ∧
    (∀ (b : Option RespBody) (rb : RespBody) (tag rt t2 : String) (s2 : Nat),
       net 0 = .resp 401 b tag → store.refresh_token = some rt →
       net 1 = .resp s2 (some rb) t2 → respOk s2 = true →
       retryEvents (runOne url options store net) =
         [⟨0, .retryFetch, retryRequest url options (mergedHeaders store.access_token options)
            (rb.access.getD "undefined")⟩] ∧
       getHeader (retryRequest url options (mergedHeaders store.access_token options)
           (rb.access.getD "undefined")).headers "Authorization"
         = some ("Bearer " ++ rb.access.getD "undefined")) := by
  refine ⟨⟨runOne_trace_head url options store net, rfl⟩, ?_, ?_⟩
  · intro k v hnd hk
    exact getHeader_objSpread_right _ options.headers k v hnd hk
  · intro b rb tag rt t2 s2 h0 hrt h1 hs2
    have h := runOne_401_refreshOk url options store net b rb tag rt t2 s2 h0 hrt h1 hs2
    constructor
    · simp [h, retryEvents]
    · exact getHeader_objSpread_singleton _ "Authorization" _

/-- Options for the C5 witness: a custom caller header. -/
def c5woptions : Options := { method := none, headers := [("X-Custom", "7")], body := none }

/-- Witness for the amended C5 at a concrete input. -/
theorem c5_amended_witness :
    ((runOne "/api/x" c5woptions
        { access_token := some "T1", refresh_token := some "R1" } demoNet).trace.head? =
       some ⟨0, .primaryFetch, primaryRequest "/api/x" c5woptions (some "T1")⟩ ∧
     (primaryRequest "/api/x" c5woptions (some "T1")).headers =
       objSpread (defaultHeaders (some "T1")) c5woptions.headers) ∧
    getHeader (primaryRequest "/api/x" c5woptions (some "T1")).headers "X-Custom" = some "7" ∧
    (retryEvents (runOne "/api/x" c5woptions
        { access_token := some "T1", refresh_token := some "R1" } demoNet) =
       [⟨0, .retryFetch, retryRequest "/api/x" c5woptions
          (mergedHeaders (some "T1") c5woptions) "T2"⟩] ∧
     getHeader (retryRequest "/api/x" c5woptions
         (mergedHeaders (some "T1") c5woptions) "T2").headers "Authorization"
       = some ("Bearer " ++ "T2")) :=
  ⟨(c5_amended_caller_wins_all_conflicts "/api/x" c5woptions
      { access_token := some "T1", refresh_token := some "R1" } demoNet).1,
   (c5_amended_caller_wins_all_conflicts "/api/x" c5woptions
      { access_token := some "T1", refresh_token := some "R1" } demoNet).2.1
     "X-Custom" "7" (by decide) (by decide),
   (c5_amended_caller_wins_all_conflicts "/api/x" c5woptions
      { access_token := some "T1", refresh_token := some "R1" } demoNet).2.2
     none { access := some "T2", activity_types := none }
     "orig" "R1" "refreshed" 200 rfl rfl rfl rfl⟩

/-! ## Claim C6 — successful refresh and retry -/

/-- Claim C6: on a 401 primary response with refresh token `rt` stored,
when the refresh endpoint (called by POST with body
`JSON.stringify(\x7brefresh: rt\x7d)`) answers 2xx with a new access token,
that token is written to the store, the original request is re-sent
exactly once with `Authorization: Bearer <new token>`, and the response of
the retried request settles the call. -/
theorem c6_refresh_retry_success (url : String) (options : Options) (store : Store)
    (net : Nat → FetchOutcome) (acts : Option (List String)) (b b3 : Option RespBody)
    (tag rt t2 T2 tag3 : String) (s2 s3 : Nat)
    (h0 : net 0 = .resp 401 b tag) (hrt : store.refresh_token = some rt)
    (h1 : net 1 = .resp s2 (some { access := some T2, activity_types := acts }) t2)
    (hs2 : respOk s2 = true) (h2 : net 2 = .resp s3 b3 tag3) :
    (runOne url options store net).store =
      { access_token := some T2, refresh_token := some rt } ∧
    (runOne url options store net).trace =
      [⟨0, .primaryFetch, primaryRequest url options store.access_token⟩,
       ⟨0, .refreshFetch, refreshRequest rt⟩,
       ⟨0, .retryFetch, retryRequest url options (mergedHeaders store.access_token options) T2⟩] ∧
    getHeader (retryRequest url options (mergedHeaders store.access_token options) T2).headers
      "Authorization" = some ("Bearer " ++ T2) ∧
    callResult (runOne url options store net) 0 = some (.resp s3 b3 tag3) := by
  have h := runOne_401_refreshOk url options store net b
    { access := some T2, activity_types := acts } tag rt t2 s2 h0 hrt h1 hs2
  refine ⟨?_, ?_, ?_, ?_⟩
  · simp [h]
  · simp [h]
  · exact getHeader_objSpread_singleton _ "Authorization" _
  · simp [h, h2, callResult]

/-- Witness for C6: the very scenario of the spec — access token `"T1"` expired,
refresh token `"R1"`, refresh answers `\x7baccess: "T2"\x7d`, retry
answers 200. -/
theorem c6_witness :
    (runOne "/api/x" noOptions
       { access_token := some "T1", refresh_token := some "R1" } demoNet).store =
      { access_token := some "T2", refresh_token := some "R1" } ∧
    (runOne "/api/x" noOptions
       { access_token := some "T1", refresh_token := some "R1" } demoNet).trace =
      [⟨0, .primaryFetch, primaryRequest "/api/x" noOptions (some "T1")⟩,
       ⟨0, .refreshFetch, refreshRequest "R1"⟩,
       ⟨0, .retryFetch, retryRequest "/api/x" noOptions
          (mergedHeaders (some "T1") noOptions) "T2"⟩] ∧
    getHeader (retryRequest "/api/x" noOptions
        (mergedHeaders (some "T1") noOptions) "T2").headers "Authorization"
      = some ("Bearer " ++ "T2") ∧
    callResult (runOne "/api/x" noOptions
       { access_token := some "T1", refresh_token := some "R1" } demoNet) 0
      = some (.resp 200 none "ok") :=
  c6_refresh_retry_success "/api/x" noOptions
    { access_token := some "T1", refresh_token := some "R1" } demoNet
    none none none "orig" "R1" "refreshed" "T2" "ok" 200 200 rfl rfl rfl rfl rfl

/-! ## Claim C7 — non-401 pass-through and transport failure -/

/-- Claim C7: a primary response with any status other than 401 settles
the call unmodified with no further sends, no token-store mutation and no
redirect; a transport-level failure of the primary send propagates the
thrown error immediately with no further sends and no store mutation. -/
theorem c7_non401_payload_passthrough (url : String) (options : Options) (store : Store)
    (net : Nat → FetchOutcome) :
    (∀ (s : Nat) (b : Option RespBody) (tag : String),
       net 0 = .resp s b tag → s ≠ 401 →
       callResult (runOne url options store net) 0 = some (.resp s b tag) ∧
       (runOne url options store net).store = store ∧
       (runOne url options store net).redirected = false ∧
       (runOne url options store net).trace =
         [⟨0, .primaryFetch, primaryRequest url options store.access_token⟩]) ∧
    (∀ e : String,
       net 0 = .netErr e →
       callResult (runOne url options store net) 0 = some (.thrown e) ∧
       (runOne url options store net).store = store ∧
       (runOne url options store net).redirected = false ∧
       (runOne url options store net).trace =
         [⟨0, .primaryFetch, primaryRequest url options store.access_token⟩]) := by
  constructor
  · intro s b tag h0 hs
    have h := runOne_non401 url options store net s b tag h0 hs
    refine ⟨?_, ?_, ?_, ?_⟩ <;> simp [h, callResult]
  · intro e h0
    have h := runOne_netErr url options store net e h0
    refine ⟨?_, ?_, ?_, ?_⟩ <;> simp [h, callResult]

/-- Network script answering 500. -/
def c7net : Nat → FetchOutcome := fun _ => .resp 500 none "server-error"

/-- Network script failing at the transport level. -/
def c7netFail : Nat → FetchOutcome := fun _ => .netErr "connection-reset"

/-- Witness for C7 at concrete inputs: a 500 response and a transport
failure. -/
theorem c7_witness :
    (callResult (runOne "/api/x" noOptions
       { access_token := some "T1", refresh_token := some "R1" } c7net) 0
       = some (.resp 500 none "server-error") ∧
     (runOne "/api/x" noOptions
       { access_token := some "T1", refresh_token := some "R1" } c7net).store
       = { access_token := some "T1", refresh_token := some "R1" } ∧
     (runOne "/api/x" noOptions
       { access_token := some "T1", refresh_token := some "R1" } c7net).redirected = false ∧
     (runOne "/api/x" noOptions
       { access_token := some "T1", refresh_token := some "R1" } c7net).trace =
       [⟨0, .primaryFetch, primaryRequest "/api/x" noOptions (some "T1")⟩]) ∧
    (callResult (runOne "/api/x" noOptions
       { access_token := some "T1", refresh_token := some "R1" } c7netFail) 0
       = some (.thrown "connection-reset") ∧
     (runOne "/api/x" noOptions
       { access_token := some "T1", refresh_token := some "R1" } c7netFail).store
       = { access_token := some "T1", refresh_token := some "R1" } ∧
     (runOne "/api/x" noOptions
       { access_token := some "T1", refresh_token := some "R1" } c7netFail).redirected = false ∧
     (runOne "/api/x" noOptions
       { access_token := some "T1", refresh_token := some "R1" } c7netFail).trace =
       [⟨0, .primaryFetch, primaryRequest "/api/x" noOptions (some "T1")⟩]) :=
  ⟨(c7_non401_payload_passthrough "/api/x" noOptions
      { access_token := some "T1", refresh_token := some "R1" } c7net).1
     500 none "server-error" rfl (by decide),
   (c7_non401_payload_passthrough "/api/x" noOptions
      { access_token := some "T1", refresh_token := some "R1" } c7netFail).2
     "connection-reset" rfl⟩

/-! ## Claim C8 — unauthenticated send -/

/-- Claim C8: when no access token is stored, the primary request carries
exactly the default `Content-Type` header spread with the caller
headers, and no `Authorization` header unless the caller supplied one. -/
theorem c8_no_token_no_authorization (url : String) (options : Options) (store : Store)
    (net : Nat → FetchOutcome) (hat : store.access_token = none) :
    (runOne url options store net).trace.head? =
      some ⟨0, .primaryFetch, primaryRequest url options none⟩ ∧
    (primaryRequest url options none).headers =
      objSpread [("Content-Type", "application/json")] options.headers ∧
    (getHeader options.headers "Authorization" = none →
       getHeader (primaryRequest url options none).headers "Authorization" = none) := by
  refine ⟨?_, rfl, ?_⟩
  · rw [runOne_trace_head url options store net, hat]
  · intro hnone
    have hnm := getHeader_none_not_mem options.headers "Authorization" hnone
    show getHeader (objSpread [("Content-Type", "application/json")] options.headers)
      "Authorization" = none
    rw [getHeader_objSpread_not_mem _ _ _ hnm]
    decide

/-- Witness for C8 at a concrete input. -/
theorem c8_witness :
    (runOne "/api/x" c5woptions
       { access_token := none, refresh_token := none } c7net).trace.head? =
      some ⟨0, .primaryFetch, primaryRequest "/api/x" c5woptions none⟩ ∧
    (primaryRequest "/api/x" c5woptions none).headers =
      objSpread [("Content-Type", "application/json")] c5woptions.headers ∧
    getHeader (primaryRequest "/api/x" c5woptions none).headers "Authorization" = none :=
  ⟨(c8_no_token_no_authorization "/api/x" c5woptions
      { access_token := none, refresh_token := none } c7net rfl).1,
   (c8_no_token_no_authorization "/api/x" c5woptions
      { access_token := none, refresh_token := none } c7net rfl).2.1,
   (c8_no_token_no_authorization "/api/x" c5woptions
      { access_token := none, refresh_token := none } c7net rfl).2.2 (by decide)⟩

/-! ## Claim C9 — loadActivitiesForProject is total -/

/-- Claim C9: for every project id, token store and network behaviour, if
the underlying call settles with a thrown error (caught by the try), a
non-ok response, a response whose body fails to parse (caught), or a body
lacking the `activity_types` field, `loadActivitiesForProject` returns the
fixed default six-activity list; the function is total (it never
propagates an error — its Lean type is a plain `List String`). -/
theorem c9_activities_default_on_failure (projectId : Nat) (store : Store)
    (net : Nat → FetchOutcome)
    (hfail :
      (∃ e, activitiesCallRes projectId store net = some (.thrown e)) ∨
      (∃ s b tag, activitiesCallRes projectId store net = some (.resp s b tag) ∧
         respOk s = false) ∨
      (∃ s tag, activitiesCallRes projectId store net = some (.resp s none tag)) ∨
      (∃ s acc tag, activitiesCallRes projectId store net =
         some (.resp s (some { access := acc, activity_types := none }) tag))) :
    loadActivitiesForProject projectId store net = defaultActivities := by
  rcases hfail with ⟨e, h⟩ | ⟨s, b, tag, h, hok⟩ | ⟨s, tag, h⟩ | ⟨s, acc, tag, h⟩
  · simp [loadActivitiesForProject, h]
  · simp [loadActivitiesForProject, h, hok]
  · by_cases hok : respOk s = true
    · simp [loadActivitiesForProject, h, hok]
    · simp [loadActivitiesForProject, h, Bool.of_not_eq_true hok]
  · by_cases hok : respOk s = true
    · simp [loadActivitiesForProject, h, hok]
    · simp [loadActivitiesForProject, h, Bool.of_not_eq_true hok]

/-- Witness for C9 at a concrete input: the network call throws. -/
theorem c9_witness :
    loadActivitiesForProject 5 { access_token := none, refresh_token := none } c7netFail
      = defaultActivities :=
  c9_activities_default_on_failure 5 { access_token := none, refresh_token := none } c7netFail
    (Or.inl ⟨"connection-reset", by decide⟩)

/-! ## Claim C10 — date round-trip -/

/-- Claim C10: for every well-formed `YYYY-MM-DD` string with four-digit
year, month in 1..12 and day valid for that month — i.e. for every
`dateStr y m d` with those bounds — `formatDate` of `parseDate` gives the
string back. -/
theorem c10_date_round_trip (y m d : Nat) (hy1 : 1000 ≤ y) (hy2 : y ≤ 9999)
    (hm1 : 1 ≤ m) (hm2 : m ≤ 12) (hd1 : 1 ≤ d) (hd2 : d ≤ daysInMonth y (m - 1)) :
    (parseDate (dateStr y m d)).map formatDate = some (dateStr y m d) := by
  have hY : ∀ c ∈ natToChars y, c ≠ '-' :=
    fun c hc => digit_ne_dash c (allDigits_natToChars y c hc)
  have hM : ∀ c ∈ pad2 (natToChars m), c ≠ '-' :=
    fun c hc => digit_ne_dash c (allDigits_pad2 _ (allDigits_natToChars m) c hc)
  have hD : ∀ c ∈ pad2 (natToChars d), c ≠ '-' :=
    fun c hc => digit_ne_dash c (allDigits_pad2 _ (allDigits_natToChars d) c hc)
  have hshape : dateStr y m d =
      natToChars y ++ '-' :: (pad2 (natToChars m) ++ '-' :: pad2 (natToChars d)) := by
    simp [dateStr, List.append_assoc]
  have hsplit : splitOnDash (dateStr y m d) =
      [natToChars y, pad2 (natToChars m), pad2 (natToChars d)] := by
    rw [hshape, splitOnDash_append _ _ hY, splitOnDash_append _ _ hM,
      splitOnDash_nodash _ hD]
  have hmk : mkDate y (m - 1) d = ⟨y, m - 1, d⟩ :=
    mkDate_valid y m d (by omega) hm1 hm2 hd1 hd2
  have hm' : m - 1 + 1 = m := by omega
  unfold parseDate
  rw [hsplit]
  simp only [List.map_cons, List.map_nil, charsToNat?_natToChars, charsToNat?_pad2_natToChars]
  simp only [hmk, Option.map_some']
  unfold formatDate dateStr
  rw [hm']

/-- Witness for C10 at a concrete input: the leap day 2024-02-29. -/
theorem c10_witness :
    (parseDate (dateStr 2024 2 29)).map formatDate = some (dateStr 2024 2 29) :=
  c10_date_round_trip 2024 2 29 (by decide) (by decide) (by decide) (by decide)
    (by decide) (by decide)

end TimesheetClient
